import Mathlib

/-!
Verification of the two-tier caching subsystem of movie-director-api.

Shallow embedding of `src/src/services/cache.service.ts` (class `CacheService`)
and of its domain caller `src/src/services/movie.service.ts`
(`MovieService.getAllMovies`).

Modelling conventions:
* JavaScript runtime values cached in the Local Tier (an in-process
  `NodeCache`) are modelled by `JsVal`; the JSON-representable values are
  `Jval`.  `JSON.stringify` / `JSON.parse` are modelled at the value level
  (`jsonField`, `jvalToJs`), and Redis string payloads by `Bytes`, which
  records the parse outcome of the stored string: `Bytes.ofJson j` for a
  string that parses to `j` (the output of `JSON.stringify` always parses
  back to the printed value), `Bytes.empty` for the empty string `""` (the
  one string that is falsy in JavaScript), and `Bytes.malformed t` for any
  other string `JSON.parse` rejects.
* The module-level `localCache` (NodeCache) and the Redis database are both
  association lists from full keys to values; insertion is by consing (the
  lookup takes the first binding).  TTLs (NodeCache stdTTL 300, Redis
  CACHE_TTL 3600) and autonomous expiry are not modelled: every claim under
  verification excludes expiry; TTL-based eviction of a Local Tier entry is
  modelled directly as removal of the binding.
* Network effects are modelled by explicit success oracles (`Bool`
  parameters): `subOk` for the NATS `subscribe` call, `redisOk` for the
  Redis call of `get`/`set`, `keysOk`/`delOk` for the `keys`/`del` calls of
  `clearAllCaches`, `pubOk` for the NATS `publish` call.  A `false` oracle
  makes the awaited call throw a connectivity error.
* A thrown exception is an `Except.error`; operations whose body catches
  (`try { ... } catch { console.error(...) }`) return `Except.ok` in the
  catch arm, with the state the mutations before the throw produced.
-/

/-- JavaScript runtime values, as far as the cache observes them: the JSON
values plus `undefined` and `Date` objects (the two value shapes of the
repository that a `JSON.parse ∘ JSON.stringify` round trip does not
preserve). -/
inductive JsVal where
  | null : JsVal
  | undef : JsVal
  | bool : Bool → JsVal
  | num : Int → JsVal
  | str : String → JsVal
  | date : Int → JsVal
  | arr : List JsVal → JsVal
  | obj : List (String × JsVal) → JsVal


/-- JSON values: the image of `JSON.parse`. -/
inductive Jval where
  | null : Jval
  | bool : Bool → Jval
  | num : Int → Jval
  | str : String → Jval
  | arr : List Jval → Jval
  | obj : List (String × Jval) → Jval


/-- Rendering of `Date.prototype.toJSON` (an ISO-8601 timestamp string);
modelled abstractly as an injective rendering of the epoch value. -/
def dateToJSON (t : Int) : String := "1970-epoch+" ++ toString t

mutual
/-- `JSON.stringify` semantics of a value appearing as an object field (or at
top level): `undefined` produces no JSON (`none`, the field is dropped),
`Date` serializes through `toJSON` to a string, arrays render `undefined`
elements as `null`. -/
def jsonField : JsVal → Option Jval
  | .null => some .null
  | .undef => none
  | .bool b => some (.bool b)
  | .num n => some (.num n)
  | .str s => some (.str s)
  | .date t => some (.str (dateToJSON t))
  | .arr xs => some (.arr (jsonElems xs))
  | .obj fs => some (.obj (jsonProps fs))

/-- Array elements under `JSON.stringify`: an element that produces no JSON
becomes `null`. -/
def jsonElems : List JsVal → List Jval
  | [] => []
  | x :: xs => ((jsonField x).getD .null) :: jsonElems xs

/-- Object properties under `JSON.stringify`: a property whose value produces
no JSON is dropped. -/
def jsonProps : List (String × JsVal) → List (String × Jval)
  | [] => []
  | (k, v) :: fs =>
    match jsonField v with
    | some j => (k, j) :: jsonProps fs
    | none => jsonProps fs
end

mutual
/-- The embedding of a parsed JSON value back into the runtime values: what
`JSON.parse` hands to the caller. -/
def jvalToJs : Jval → JsVal
  | .null => .null
  | .bool b => .bool b
  | .num n => .num n
  | .str s => .str s
  | .arr xs => .arr (jvalListToJs xs)
  | .obj fs => .obj (jvalPropsToJs fs)

def jvalListToJs : List Jval → List JsVal
  | [] => []
  | x :: xs => jvalToJs x :: jvalListToJs xs

def jvalPropsToJs : List (String × Jval) → List (String × JsVal)
  | [] => []
  | (k, v) :: fs => (k, jvalToJs v) :: jvalPropsToJs fs
end

/-- A Redis string payload, recorded by its `JSON.parse` outcome: `ofJson j`
for a string parsing to `j`, `empty` for `""` (the single falsy string),
`malformed t` for any other string `JSON.parse` rejects (tagged so distinct
corrupted payloads stay distinct). `JSON.stringify` output is never the empty
string. -/
inductive Bytes where
  | ofJson : Jval → Bytes
  | empty : Bytes
  | malformed : Nat → Bytes


/-- `JSON.stringify(data)` as stored by `set`: a defined value stores its
JSON text; `JSON.stringify(undefined)` is `undefined`, which the Redis client
coerces to the string "undefined" — a string `JSON.parse` rejects. -/
def stringify (v : JsVal) : Bytes :=
  match jsonField v with
  | some j => Bytes.ofJson j
  | none => Bytes.malformed 0

/-- `JSON.parse` on a stored payload; `Except.error` is the thrown
`SyntaxError` (the Serialization Error of the design). -/
def jsonParse : Bytes → Except Unit Jval
  | .ofJson j => .ok j
  | .empty => .error ()
  | .malformed _ => .error ()

/-- JavaScript truthiness of a payload string (`if (redisData)`): only the
empty string is falsy. -/
def bytesTruthy : Bytes → Bool
  | .empty => false
  | _ => true

/-- JavaScript truthiness of a runtime value (`if (cachedMovies)`). -/
def jsTruthy : JsVal → Bool
  | .null => false
  | .undef => false
  | .bool b => b
  | .num n => n != 0
  | .str s => s != ""
  | .date _ => true
  | .arr _ => true
  | .obj _ => true

/-- Errors the cache subsystem can throw: `conn` a Connectivity Error
(Redis/NATS call rejected), `serial` a Serialization Error (`JSON.parse`
threw on a Shared Tier hit). -/
inductive CacheError where
  | conn : CacheError
  | serial : CacheError


/-- Does a full key fall under the namespace `pfx`?  Models the Redis glob
pattern `` `${this.keyPrefix}:*` `` passed to `redisClient.keys`, which (for a
namespace free of glob metacharacters, as here) matches exactly the keys
beginning with `pfx ++ ":"`. -/
def keyInNs (pfx k : String) : Bool :=
  (pfx ++ ":").data.isPrefixOf k.data

/-- The in-process state the cache subsystem touches: the `CacheService`
instance's fields (`keyPfx` for the source's key-prefix field,
`natsSubscribed`), the module-level NodeCache `localCache`, the Redis
database, and instrumentation of the NATS bus: `subHandlers` counts handlers
registered by `nats.subscribe`, `subAttempts` counts subscription attempts,
`published` counts clear signals published. -/
structure CacheState where
  keyPfx : String
  localCache : List (String × JsVal)
  redis : List (String × Bytes)
  natsSubscribed : Bool
  subHandlers : Nat
  subAttempts : Nat
  published : Nat


namespace CacheService

/-- `private getKey(key) { return `${this.keyPrefix}:${key}`; }` -/
def getKey (pfx key : String) : String := pfx ++ ":" ++ key

/-- `private async setupNatsSubscription()`: returns immediately when already
subscribed; otherwise attempts `nats.subscribe(EVENTS.MOVIE_CACHE_CLEAR, …)`
(success oracle `subOk`), setting `natsSubscribed` on success; a failure is
caught and logged, leaving the flag unset.  Never throws. -/
def setupNatsSubscription (st : CacheState) (subOk : Bool) : CacheState :=
  if st.natsSubscribed then st
  else if subOk then
    { st with natsSubscribed := true,
              subHandlers := st.subHandlers + 1,
              subAttempts := st.subAttempts + 1 }
  else
    { st with subAttempts := st.subAttempts + 1 }

/-- Outcome of `get`: the returned promise (`Except` for a thrown error,
`Option` for `T | null`), the post-state, and whether the Redis read was
issued (`sharedProbed`). -/
structure GetOut where
  result : Except CacheError (Option JsVal)
  state : CacheState
  sharedProbed : Bool


/-- `public async get<T>(key)`: ensures the NATS subscription, then tries the
local cache; on a local miss reads Redis (`redisOk` oracle; a rejected read
throws — there is no try/catch in `get`), and on a truthy payload parses it
(`JSON.parse` throwing a Serialization Error on malformed bytes), backfills
the local cache and returns the parsed value; otherwise returns `null`. -/
def get (st : CacheState) (key : String) (subOk redisOk : Bool) : GetOut :=
  let st1 := setupNatsSubscription st subOk
  let fullKey := getKey st1.keyPfx key
  match st1.localCache.lookup fullKey with
  | some v => ⟨.ok (some v), st1, false⟩
  | none =>
    if redisOk then
      match st1.redis.lookup fullKey with
      | some b =>
        if bytesTruthy b then
          match jsonParse b with
          | .ok j =>
            let v := jvalToJs j
            ⟨.ok (some v), { st1 with localCache := (fullKey, v) :: st1.localCache }, true⟩
          | .error _ => ⟨.error .serial, st1, true⟩
        else ⟨.ok none, st1, true⟩
      | none => ⟨.ok none, st1, true⟩
    else ⟨.error .conn, st1, true⟩

/-- Outcome of `set`/`clearAllCaches`/`publishCacheClear`: the promise and the
post-state. -/
structure UnitOut where
  result : Except CacheError Unit
  state : CacheState


/-- `public async set<T>(key, data)`: ensures the NATS subscription, then
`redisClient.setex(fullKey, CACHE_TTL, JSON.stringify(data))` — un-guarded, so
a rejected Redis write throws out of `set` and the local write below it never
runs — then stores the original value in the local cache. -/
def set (st : CacheState) (key : String) (v : JsVal) (subOk redisOk : Bool) : UnitOut :=
  let st1 := setupNatsSubscription st subOk
  let fullKey := getKey st1.keyPfx key
  if redisOk then
    let st2 := { st1 with redis := (fullKey, stringify v) :: st1.redis }
    ⟨.ok (), { st2 with localCache := (fullKey, v) :: st2.localCache }⟩
  else ⟨.error .conn, st1⟩

/-- Outcome of `clearAllCaches`, also recording whether the bulk
`redisClient.del(...keys)` call was issued. -/
structure ClearOut where
  result : Except CacheError Unit
  state : CacheState
  delIssued : Bool


/-- `public async clearAllCaches()`: inside one try/catch, flushes the local
cache, enumerates the Redis keys matching `` `${this.keyPrefix}:*` ``
(`keysOk` oracle) and, only when at least one key matched, deletes them
(`delOk` oracle).  Any throw is caught and logged, so the call always
resolves; the local flush precedes the Redis calls and survives their
failure. -/
def clearAllCaches (st : CacheState) (keysOk delOk : Bool) : ClearOut :=
  let st1 := { st with localCache := [] }
  if keysOk then
    let keys : List (String × Bytes) := st1.redis.filter (fun e => keyInNs st1.keyPfx e.1)
    if keys.length > 0 then
      if delOk then
        ⟨.ok (), { st1 with redis := st1.redis.filter (fun e => !keyInNs st1.keyPfx e.1) }, true⟩
      else ⟨.ok (), st1, true⟩
    else ⟨.ok (), st1, false⟩
  else ⟨.ok (), st1, false⟩

/-- `public async publishCacheClear()`: ensures the NATS subscription, then
publishes the empty clear signal inside a try/catch (`pubOk` oracle); a
publish failure is caught and logged, so the call always resolves. -/
def publishCacheClear (st : CacheState) (subOk pubOk : Bool) : UnitOut :=
  let st1 := setupNatsSubscription st subOk
  if pubOk then ⟨.ok (), { st1 with published := st1.published + 1 }⟩
  else ⟨.ok (), st1⟩

/-- Delivery of a clear signal by the bus: the subscription callback
registered in `setupNatsSubscription` is `() => { this.clearAllCaches(); }`. -/
def deliverClear (st : CacheState) (keysOk delOk : Bool) : CacheState :=
  (clearAllCaches st keysOk delOk).state

end CacheService

/-- The identity-relevant part of a constructed `CacheService` object: the
`private constructor(keyPrefix)` stores its argument in the key-prefix
field. -/
structure CSInstance where
  keyPfx : String

/-- `public static getInstance(keyPrefix)`: reads the static `instance` field
(`inst`); when unset, constructs `new CacheService(keyPrefix)` and stores it;
returns the stored instance together with the updated static field. -/
def CacheService.getInstance (inst : Option CSInstance) (p : String) :
    CSInstance × Option CSInstance :=
  match inst with
  | none => (⟨p⟩, some ⟨p⟩)
  | some i => (i, some i)

/-- A sequence of `getInstance` acquisitions in one process: threads the
static `instance` field through the calls, collecting each returned
instance. -/
def runGetInstance : Option CSInstance → List String → List CSInstance × Option CSInstance
  | inst, [] => ([], inst)
  | inst, p :: ps =>
    let r := CacheService.getInstance inst p
    let rest := runGetInstance r.2 ps
    (r.1 :: rest.1, rest.2)

/-- One sequentially executed cache operation, with the success oracles of
the network calls it performs.  `clearAllCaches` is reached only through bus
delivery; the operations that ensure the subscription are `get`, `set` and
`publishCacheClear`. -/
inductive CacheOp where
  | getOp : String → Bool → Bool → CacheOp
  | setOp : String → JsVal → Bool → Bool → CacheOp
  | pubOp : Bool → Bool → CacheOp

/-- The success oracle of the NATS `subscribe` attempt an operation makes. -/
def CacheOp.subOk : CacheOp → Bool
  | .getOp _ s _ => s
  | .setOp _ _ s _ => s
  | .pubOp s _ => s

/-- State transition of one sequentially executed cache operation. -/
def stepOp (st : CacheState) : CacheOp → CacheState
  | .getOp k s r => (CacheService.get st k s r).state
  | .setOp k v s r => (CacheService.set st k v s r).state
  | .pubOp s p => (CacheService.publishCacheClear st s p).state

/-- A sequence of cache operations executed in order. -/
def runOps (st : CacheState) (ops : List CacheOp) : CacheState :=
  ops.foldl stepOp st

/-- Outcome of `MovieService.getAllMovies`: the movies returned to the HTTP
layer and the post-state.  The function itself never throws. -/
structure MoviesOut where
  result : JsVal
  state : CacheState

/-- `MovieService.getAllMovies` (movie.service.ts): tries
`cacheService.get("all-movies")` inside a try/catch (a thrown cache error is
logged and execution falls through); a truthy cached value is returned as-is;
otherwise the movies are fetched from the primary store (`dbMovies`,
`Movie.find().populate(...).sort(...)`) and written back through
`cacheService.set` inside its own try/catch, then returned. -/
def MovieService.getAllMovies (st : CacheState) (dbMovies : JsVal)
    (gSub gRedis sSub sRedis : Bool) : MoviesOut :=
  let g := CacheService.get st "all-movies" gSub gRedis
  match g.result with
  | .ok (some v) =>
    if jsTruthy v then ⟨v, g.state⟩
    else
      let s := CacheService.set g.state "all-movies" dbMovies sSub sRedis
      ⟨dbMovies, s.state⟩
  | .ok none =>
    let s := CacheService.set g.state "all-movies" dbMovies sSub sRedis
    ⟨dbMovies, s.state⟩
  | .error _ =>
    let s := CacheService.set g.state "all-movies" dbMovies sSub sRedis
    ⟨dbMovies, s.state⟩

/-! ### Helper lemmas -/

theorem setupNats_keyPfx (st : CacheState) (s : Bool) :
    (CacheService.setupNatsSubscription st s).keyPfx = st.keyPfx := by
  unfold CacheService.setupNatsSubscription
  split
  · rfl
  · split <;> rfl

theorem setupNats_localCache (st : CacheState) (s : Bool) :
    (CacheService.setupNatsSubscription st s).localCache = st.localCache := by
  unfold CacheService.setupNatsSubscription
  split
  · rfl
  · split <;> rfl

theorem setupNats_redis (st : CacheState) (s : Bool) :
    (CacheService.setupNatsSubscription st s).redis = st.redis := by
  unfold CacheService.setupNatsSubscription
  split
  · rfl
  · split <;> rfl

theorem setupNats_published (st : CacheState) (s : Bool) :
    (CacheService.setupNatsSubscription st s).published = st.published := by
  unfold CacheService.setupNatsSubscription
  split
  · rfl
  · split <;> rfl

/-- The full key built by `set` matches the namespace glob of `clearAllCaches`. -/
theorem keyInNs_getKey (pfx k : String) :
    keyInNs pfx (CacheService.getKey pfx k) = true := by
  unfold keyInNs CacheService.getKey
  rw [String.data_append, List.isPrefixOf_iff_prefix]
  exact List.prefix_append _ _

/-- A key matching `p` is absent from the list filtered to the non-matching
entries. -/
theorem lookup_filter_not {α : Type} (p : String → Bool) (k : String)
    (hp : p k = true) :
    ∀ l : List (String × α), (l.filter (fun e => !p e.1)).lookup k = none := by
  intro l
  induction l with
  | nil => rfl
  | cons a l ih =>
    by_cases h : p a.1 = true
    · simp only [List.filter, h, Bool.not_true, ih]
    · have hne : (k == a.1) = false := by
        rw [beq_eq_false_iff_ne]
        intro he
        rw [he] at hp
        exact h hp
      simp only [List.filter, Bool.not_eq_true] at h
      simp only [List.filter, h, Bool.not_false]
      cases a with
      | mk a1 a2 => simp only [List.lookup, hne, ih]

/-- A list whose `p`-filter is empty is untouched by the `!p`-filter. -/
theorem filter_not_of_filter_nil {α : Type} (p : α → Bool) :
    ∀ l : List α, l.filter p = [] → l.filter (fun e => !p e) = l := by
  intro l
  induction l with
  | nil => intro _; rfl
  | cons a l ih =>
    intro h
    by_cases ha : p a = true
    · simp [List.filter, ha] at h
    · simp only [Bool.not_eq_true] at ha
      simp only [List.filter, ha] at h
      simp only [List.filter, ha, Bool.not_false, ih h]

/-- The state after `get` is the state after its `setupNatsSubscription`
call, with possibly a new local-cache content (the backfill). -/
theorem get_state_eq (st : CacheState) (k : String) (s r : Bool) :
    ∃ lc, (CacheService.get st k s r).state
      = { CacheService.setupNatsSubscription st s with localCache := lc } := by
  simp only [CacheService.get]
  repeat' split
  all_goals exact ⟨_, rfl⟩

/-- The state after `set` is the state after its `setupNatsSubscription`
call, with possibly new tier contents. -/
theorem set_state_eq (st : CacheState) (k : String) (v : JsVal) (s r : Bool) :
    ∃ lc rd, (CacheService.set st k v s r).state
      = { CacheService.setupNatsSubscription st s with localCache := lc, redis := rd } := by
  simp only [CacheService.set]
  repeat' split
  all_goals exact ⟨_, _, rfl⟩

/-- The state after `publishCacheClear` is the state after its
`setupNatsSubscription` call, with possibly one more published signal. -/
theorem pub_state_eq (st : CacheState) (s p : Bool) :
    ∃ n, (CacheService.publishCacheClear st s p).state
      = { CacheService.setupNatsSubscription st s with published := n } := by
  simp only [CacheService.publishCacheClear]
  repeat' split
  all_goals exact ⟨_, rfl⟩

/-- Every sequentially executed cache operation changes the subscription
state exactly as its `setupNatsSubscription` call does. -/
theorem stepOp_subFields (st : CacheState) (op : CacheOp) :
    (stepOp st op).natsSubscribed
        = (CacheService.setupNatsSubscription st op.subOk).natsSubscribed ∧
    (stepOp st op).subHandlers
        = (CacheService.setupNatsSubscription st op.subOk).subHandlers ∧
    (stepOp st op).subAttempts
        = (CacheService.setupNatsSubscription st op.subOk).subAttempts := by
  cases op with
  | getOp k s r =>
    obtain ⟨lc, h⟩ := get_state_eq st k s r
    rw [show stepOp st (.getOp k s r) = (CacheService.get st k s r).state from rfl, h]
    exact ⟨rfl, rfl, rfl⟩
  | setOp k v s r =>
    obtain ⟨lc, rd, h⟩ := set_state_eq st k v s r
    rw [show stepOp st (.setOp k v s r) = (CacheService.set st k v s r).state from rfl, h]
    exact ⟨rfl, rfl, rfl⟩
  | pubOp s p =>
    obtain ⟨n, h⟩ := pub_state_eq st s p
    rw [show stepOp st (.pubOp s p) = (CacheService.publishCacheClear st s p).state from rfl, h]
    exact ⟨rfl, rfl, rfl⟩

theorem runOps_nil (st : CacheState) : runOps st [] = st := rfl

theorem runOps_cons (st : CacheState) (op : CacheOp) (ops : List CacheOp) :
    runOps st (op :: ops) = runOps (stepOp st op) ops := rfl

/-- The subscription invariant: the `natsSubscribed` flag tracks whether
exactly one handler has been registered on the bus. -/
def subInv (st : CacheState) : Prop :=
  (st.natsSubscribed = false ∧ st.subHandlers = 0) ∨
  (st.natsSubscribed = true ∧ st.subHandlers = 1)

theorem setupNats_subInv (st : CacheState) (s : Bool) :
    subInv st → subInv (CacheService.setupNatsSubscription st s) := by
  intro h
  unfold CacheService.setupNatsSubscription
  rcases h with ⟨h1, h2⟩ | ⟨h1, h2⟩
  · rw [h1]
    simp only [Bool.false_eq_true, if_false]
    cases s with
    | false =>
      simp only [Bool.false_eq_true, if_false]
      exact Or.inl ⟨rfl, h2⟩
    | true =>
      simp only [if_true]
      exact Or.inr ⟨rfl, by simp [h2]⟩
  · rw [h1]
    simp only [if_true]
    exact Or.inr ⟨h1, h2⟩

theorem stepOp_subInv (st : CacheState) (op : CacheOp) :
    subInv st → subInv (stepOp st op) := by
  intro h
  have hf := stepOp_subFields st op
  have hs := setupNats_subInv st op.subOk h
  unfold subInv
  rw [hf.1, hf.2.1]
  exact hs

theorem runOps_subInv (st : CacheState) (ops : List CacheOp) :
    subInv st → subInv (runOps st ops) := by
  induction ops generalizing st with
  | nil => intro h; exact h
  | cons op ops ih =>
    intro h
    rw [runOps_cons]
    exact ih (stepOp st op) (stepOp_subInv st op h)

/-- Once subscribed, `setupNatsSubscription` is the identity. -/
theorem setupNats_of_subscribed (st : CacheState) (s : Bool)
    (h : st.natsSubscribed = true) :
    CacheService.setupNatsSubscription st s = st := by
  unfold CacheService.setupNatsSubscription
  rw [h]
  simp

/-- While unsubscribed, a subscription attempt is made: the attempt counter
advances; on a failed attempt nothing else changes. -/
theorem setupNats_of_failed (st : CacheState) (h : st.natsSubscribed = false) :
    CacheService.setupNatsSubscription st false
      = { st with subAttempts := st.subAttempts + 1 } := by
  unfold CacheService.setupNatsSubscription
  rw [h]
  simp

/-- Once the subscription succeeded, no later operation registers again. -/
theorem runOps_of_subscribed (st : CacheState) (ops : List CacheOp)
    (h : st.natsSubscribed = true) :
    (runOps st ops).natsSubscribed = true ∧
    (runOps st ops).subHandlers = st.subHandlers := by
  induction ops generalizing st with
  | nil => exact ⟨h, rfl⟩
  | cons op ops ih =>
    have hf := stepOp_subFields st op
    have hid := setupNats_of_subscribed st op.subOk h
    have h1 : (stepOp st op).natsSubscribed = true := by rw [hf.1, hid]; exact h
    have h2 : (stepOp st op).subHandlers = st.subHandlers := by rw [hf.2.1, hid]
    have hrest := ih (stepOp st op) h1
    rw [runOps_cons]
    exact ⟨hrest.1, by rw [hrest.2, h2]⟩

/-- While unsubscribed and with every subscribe attempt failing, each
operation makes one more (failed) attempt and the flag stays unset. -/
theorem runOps_all_failed (ops : List CacheOp) :
    ∀ st : CacheState, (∀ op ∈ ops, op.subOk = false) →
    st.natsSubscribed = false →
    (runOps st ops).natsSubscribed = false ∧
    (runOps st ops).subAttempts = st.subAttempts + ops.length := by
  induction ops with
  | nil => intro st _ h; exact ⟨h, rfl⟩
  | cons op ops ih =>
    intro st hall h
    have hop : op.subOk = false := hall op (List.mem_cons_self op ops)
    have hf := stepOp_subFields st op
    have hsetup : CacheService.setupNatsSubscription st op.subOk
        = { st with subAttempts := st.subAttempts + 1 } := by
      rw [hop]
      exact setupNats_of_failed st h
    have h1 : (stepOp st op).natsSubscribed = false := by rw [hf.1, hsetup]; exact h
    have h2 : (stepOp st op).subAttempts = st.subAttempts + 1 := by rw [hf.2.2, hsetup]
    have hrest := ih (stepOp st op) (fun o ho => hall o (List.mem_cons_of_mem op ho)) h1
    rw [runOps_cons]
    refine ⟨hrest.1, ?_⟩
    rw [hrest.2, h2, List.length_cons]
    omega

/-! ### Outcome lemmas for the individual operations -/

theorem get_local_hit (st : CacheState) (k : String) (s r : Bool) (v : JsVal)
    (h : st.localCache.lookup (CacheService.getKey st.keyPfx k) = some v) :
    CacheService.get st k s r
      = ⟨.ok (some v), CacheService.setupNatsSubscription st s, false⟩ := by
  simp only [CacheService.get, setupNats_keyPfx, setupNats_localCache, h]

theorem get_shared_hit (st : CacheState) (k : String) (s : Bool) (j : Jval)
    (hl : st.localCache.lookup (CacheService.getKey st.keyPfx k) = none)
    (hr : st.redis.lookup (CacheService.getKey st.keyPfx k) = some (Bytes.ofJson j)) :
    CacheService.get st k s true
      = ⟨.ok (some (jvalToJs j)),
         { CacheService.setupNatsSubscription st s with
             localCache := (CacheService.getKey st.keyPfx k, jvalToJs j)
               :: (CacheService.setupNatsSubscription st s).localCache },
         true⟩ := by
  simp only [CacheService.get, setupNats_keyPfx, setupNats_localCache,
    setupNats_redis, hl, hr, bytesTruthy, jsonParse, if_true]

theorem get_miss (st : CacheState) (k : String) (s : Bool)
    (hl : st.localCache.lookup (CacheService.getKey st.keyPfx k) = none)
    (hr : st.redis.lookup (CacheService.getKey st.keyPfx k) = none) :
    CacheService.get st k s true
      = ⟨.ok none, CacheService.setupNatsSubscription st s, true⟩ := by
  simp only [CacheService.get, setupNats_keyPfx, setupNats_localCache,
    setupNats_redis, hl, hr, if_true]

theorem get_conn_error (st : CacheState) (k : String) (s : Bool)
    (hl : st.localCache.lookup (CacheService.getKey st.keyPfx k) = none) :
    CacheService.get st k s false
      = ⟨.error .conn, CacheService.setupNatsSubscription st s, true⟩ := by
  simp only [CacheService.get, setupNats_keyPfx, setupNats_localCache, hl,
    Bool.false_eq_true, if_false]

theorem get_serial_error (st : CacheState) (k : String) (s : Bool) (t : Nat)
    (hl : st.localCache.lookup (CacheService.getKey st.keyPfx k) = none)
    (hr : st.redis.lookup (CacheService.getKey st.keyPfx k) = some (Bytes.malformed t)) :
    CacheService.get st k s true
      = ⟨.error .serial, CacheService.setupNatsSubscription st s, true⟩ := by
  simp only [CacheService.get, setupNats_keyPfx, setupNats_localCache,
    setupNats_redis, hl, hr, bytesTruthy, jsonParse, if_true]

theorem get_empty_bytes (st : CacheState) (k : String) (s : Bool)
    (hl : st.localCache.lookup (CacheService.getKey st.keyPfx k) = none)
    (hr : st.redis.lookup (CacheService.getKey st.keyPfx k) = some Bytes.empty) :
    CacheService.get st k s true
      = ⟨.ok none, CacheService.setupNatsSubscription st s, true⟩ := by
  simp [CacheService.get, setupNats_keyPfx, setupNats_localCache,
    setupNats_redis, hl, hr, bytesTruthy]

theorem set_ok (st : CacheState) (k : String) (v : JsVal) (s : Bool) :
    CacheService.set st k v s true
      = ⟨.ok (), { CacheService.setupNatsSubscription st s with
          localCache := (CacheService.getKey st.keyPfx k, v)
            :: (CacheService.setupNatsSubscription st s).localCache,
          redis := (CacheService.getKey st.keyPfx k, stringify v)
            :: (CacheService.setupNatsSubscription st s).redis }⟩ := by
  simp only [CacheService.set, setupNats_keyPfx, if_true]

theorem set_conn (st : CacheState) (k : String) (v : JsVal) (s : Bool) :
    CacheService.set st k v s false
      = ⟨.error .conn, CacheService.setupNatsSubscription st s⟩ := by
  simp only [CacheService.set, Bool.false_eq_true, if_false]

theorem clear_localCache (st : CacheState) (a b : Bool) :
    (CacheService.clearAllCaches st a b).state.localCache = [] := by
  simp only [CacheService.clearAllCaches]
  repeat' split
  all_goals rfl

theorem clear_result (st : CacheState) (a b : Bool) :
    (CacheService.clearAllCaches st a b).result = .ok () := by
  simp only [CacheService.clearAllCaches]
  repeat' split
  all_goals rfl

theorem clear_keyPfx (st : CacheState) (a b : Bool) :
    (CacheService.clearAllCaches st a b).state.keyPfx = st.keyPfx := by
  simp only [CacheService.clearAllCaches]
  repeat' split
  all_goals rfl

/-- With both Redis calls succeeding, `clearAllCaches` leaves exactly the
keys outside the namespace. -/
theorem clear_redis_ok (st : CacheState) :
    (CacheService.clearAllCaches st true true).state.redis
      = st.redis.filter (fun e => !keyInNs st.keyPfx e.1) := by
  simp only [CacheService.clearAllCaches, if_true]
  split
  · rfl
  · next hlen =>
    have hnil : st.redis.filter (fun e => keyInNs st.keyPfx e.1) = [] := by
      rcases h : st.redis.filter (fun e => keyInNs st.keyPfx e.1) with _ | ⟨e, l⟩
      · exact h
      · rw [h] at hlen
        simp at hlen
    exact (filter_not_of_filter_nil _ _ hnil).symm

theorem pub_localCache (st : CacheState) (s p : Bool) :
    (CacheService.publishCacheClear st s p).state.localCache = st.localCache := by
  simp only [CacheService.publishCacheClear]
  split <;> simp [setupNats_localCache]

theorem pub_redis (st : CacheState) (s p : Bool) :
    (CacheService.publishCacheClear st s p).state.redis = st.redis := by
  simp only [CacheService.publishCacheClear]
  split <;> simp [setupNats_redis]

theorem pub_result (st : CacheState) (s p : Bool) :
    (CacheService.publishCacheClear st s p).result = .ok () := by
  simp only [CacheService.publishCacheClear]
  split <;> rfl

theorem set_keyPfx (st : CacheState) (k : String) (v : JsVal) (s r : Bool) :
    (CacheService.set st k v s r).state.keyPfx = st.keyPfx := by
  obtain ⟨lc, rd, h⟩ := set_state_eq st k v s r
  rw [h]
  exact setupNats_keyPfx st s

/-- A read after a sequence `set k1; set k2; clearAllCaches` (with the
network up) misses for any key of the namespace. -/
theorem get_after_set_set_clear (st : CacheState) (k1 k2 k : String)
    (v1 v2 : JsVal) (sa sb s : Bool) :
    (CacheService.get (CacheService.clearAllCaches
       (CacheService.set (CacheService.set st k1 v1 sa true).state k2 v2 sb true).state
       true true).state k s true).result = .ok none := by
  set stSet := (CacheService.set (CacheService.set st k1 v1 sa true).state k2 v2 sb true).state with hstSet
  set stC := (CacheService.clearAllCaches stSet true true).state with hstC
  have hpfx : stSet.keyPfx = st.keyPfx := by
    rw [hstSet, set_keyPfx, set_keyPfx]
  have hcpfx : stC.keyPfx = st.keyPfx := by
    rw [hstC, clear_keyPfx, hpfx]
  have hloc : stC.localCache = [] := clear_localCache stSet true true
  have hred : stC.redis = stSet.redis.filter (fun e => !keyInNs stSet.keyPfx e.1) :=
    clear_redis_ok stSet
  have hl : stC.localCache.lookup (CacheService.getKey stC.keyPfx k) = none := by
    rw [hloc]
    rfl
  have hr : stC.redis.lookup (CacheService.getKey stC.keyPfx k) = none := by
    rw [hred, hcpfx, hpfx]
    exact lookup_filter_not _ _ (keyInNs_getKey st.keyPfx k) _
  rw [get_miss stC k s hl hr]

/-- The result of `get` does not depend on whether the subscription attempt
succeeds: a Subscription Error is swallowed inside `get`. -/
theorem get_result_indep (st : CacheState) (k : String) (r s s' : Bool) :
    (CacheService.get st k s r).result = (CacheService.get st k s' r).result := by
  simp only [CacheService.get, setupNats_keyPfx, setupNats_localCache, setupNats_redis]
  cases List.lookup (CacheService.getKey st.keyPfx k) st.localCache with
  | some v => rfl
  | none =>
    cases r with
    | false => rfl
    | true =>
      cases List.lookup (CacheService.getKey st.keyPfx k) st.redis with
      | none => rfl
      | some b => cases b <;> rfl

theorem clear_noop_del (st : CacheState)
    (h : st.redis.filter (fun e => keyInNs st.keyPfx e.1) = []) :
    (CacheService.clearAllCaches st true true).delIssued = false := by
  simp only [CacheService.clearAllCaches, if_true]
  split
  · next hlen => rw [h] at hlen; simp at hlen
  · rfl

theorem pub_published_ok (st : CacheState) (s : Bool) :
    (CacheService.publishCacheClear st s true).state.published = st.published + 1 := by
  simp only [CacheService.publishCacheClear, if_true]
  simp [setupNats_published]

/-- The process state before any cache access: namespace "movie" (bound by
`movie.service.ts` via `CacheService.getInstance("movie")`), both tiers
empty, no subscription. -/
def emptySt : CacheState := ⟨"movie", [], [], false, 0, 0, 0⟩

/-! ### The claims -/

/-- C1: read-through contract of `get`: a Local Tier hit is returned without
probing the Shared Tier; on a Local Tier miss, a Shared Tier hit holding
well-formed bytes is deserialized, backfilled into the Local Tier and
returned; when neither tier holds the key, `get` returns `null` without an
error (and without touching the Local Tier). -/
theorem claim_C1_read_through (st : CacheState) (key : String) (subOk redisOk : Bool) :
    (∀ v, st.localCache.lookup (CacheService.getKey st.keyPfx key) = some v →
      (CacheService.get st key subOk redisOk).result = .ok (some v) ∧
      (CacheService.get st key subOk redisOk).sharedProbed = false) ∧
    (∀ j, st.localCache.lookup (CacheService.getKey st.keyPfx key) = none →
      st.redis.lookup (CacheService.getKey st.keyPfx key) = some (Bytes.ofJson j) →
      (CacheService.get st key subOk true).result = .ok (some (jvalToJs j)) ∧
      (CacheService.get st key subOk true).state.localCache.lookup
          (CacheService.getKey st.keyPfx key) = some (jvalToJs j)) ∧
    (st.localCache.lookup (CacheService.getKey st.keyPfx key) = none →
      st.redis.lookup (CacheService.getKey st.keyPfx key) = none →
      (CacheService.get st key subOk true).result = .ok none ∧
      (CacheService.get st key subOk true).state.localCache = st.localCache) := by
  refine ⟨?_, ?_, ?_⟩
  · intro v h
    rw [get_local_hit st key subOk redisOk v h]
    exact ⟨rfl, rfl⟩
  · intro j hl hr
    rw [get_shared_hit st key subOk j hl hr]
    refine ⟨rfl, ?_⟩
    simp [List.lookup]
  · intro hl hr
    rw [get_miss st key subOk hl hr]
    exact ⟨rfl, setupNats_localCache st subOk⟩

def stLocal : CacheState := ⟨"movie", [("movie:k", JsVal.num 7)], [], false, 0, 0, 0⟩

def stShared : CacheState := ⟨"movie", [], [("movie:k", Bytes.ofJson (Jval.num 7))], false, 0, 0, 0⟩

theorem claim_C1_witness :
    ((CacheService.get stLocal "k" true true).result = .ok (some (JsVal.num 7)) ∧
     (CacheService.get stLocal "k" true true).sharedProbed = false) ∧
    ((CacheService.get stShared "k" true true).result = .ok (some (jvalToJs (Jval.num 7))) ∧
     (CacheService.get stShared "k" true true).state.localCache.lookup
        (CacheService.getKey stShared.keyPfx "k") = some (jvalToJs (Jval.num 7))) ∧
    ((CacheService.get emptySt "k" true true).result = .ok none ∧
     (CacheService.get emptySt "k" true true).state.localCache = emptySt.localCache) :=
  ⟨(claim_C1_read_through stLocal "k" true true).1 (JsVal.num 7) rfl,
   (claim_C1_read_through stShared "k" true true).2.1 (Jval.num 7) rfl rfl,
   (claim_C1_read_through emptySt "k" true true).2.2 rfl rfl⟩

/-- C2: round trip — `set(k, v)` (succeeding) followed by `get(k)` with no
intervening clear, expiry or write returns exactly `v` (served by the Local
Tier, which stores the original value). -/
theorem claim_C2_round_trip (st : CacheState) (k : String) (v : JsVal)
    (s1 s2 r2 : Bool) :
    (CacheService.get (CacheService.set st k v s1 true).state k s2 r2).result
      = .ok (some v) := by
  rw [set_ok st k v s1]
  have h : List.lookup
      (CacheService.getKey
        ({ CacheService.setupNatsSubscription st s1 with
            localCache := (CacheService.getKey st.keyPfx k, v)
              :: (CacheService.setupNatsSubscription st s1).localCache,
            redis := (CacheService.getKey st.keyPfx k, stringify v)
              :: (CacheService.setupNatsSubscription st s1).redis } : CacheState).keyPfx k)
      ({ CacheService.setupNatsSubscription st s1 with
          localCache := (CacheService.getKey st.keyPfx k, v)
            :: (CacheService.setupNatsSubscription st s1).localCache,
          redis := (CacheService.getKey st.keyPfx k, stringify v)
            :: (CacheService.setupNatsSubscription st s1).redis } : CacheState).localCache
      = some v := by
    simp [setupNats_keyPfx, List.lookup]
  rw [get_local_hit _ k s2 r2 v h]

/-- Once the static field holds an instance, every later acquisition returns
exactly that instance. -/
theorem runGetInstance_some (ps : List String) (i : CSInstance) :
    runGetInstance (some i) ps = (ps.map (fun _ => i), some i) := by
  induction ps with
  | nil => rfl
  | cons p ps ih =>
    simp only [runGetInstance, CacheService.getInstance, ih, List.map]

/-- C3: first-namespace singleton — in one process, every `getInstance` call
of a sequence returns the one instance constructed by the first call, whose
key prefix is the first namespace argument; later (possibly different)
namespace arguments are ignored. -/
theorem claim_C3_first_namespace_singleton (p : String) (ps : List String) :
    (∀ i ∈ (runGetInstance none (p :: ps)).1, i = ⟨p⟩) ∧
    (runGetInstance none (p :: ps)).2 = some ⟨p⟩ := by
  have h : runGetInstance none (p :: ps)
      = (CSInstance.mk p :: ps.map (fun _ => CSInstance.mk p), some ⟨p⟩) := by
    simp only [runGetInstance, CacheService.getInstance, runGetInstance_some]
  rw [h]
  constructor
  · intro i hi
    rcases List.mem_cons.mp hi with h1 | h1
    · exact h1
    · rcases List.mem_map.mp h1 with ⟨q, _, h2⟩
      exact h2.symm
  · rfl

theorem claim_C3_witness :
    ((⟨"director"⟩ : CSInstance) ∈ (runGetInstance none ["movie", "director"]).1 → False) ∧
    ((⟨"movie"⟩ : CSInstance) ∈ (runGetInstance none ["movie", "director"]).1) ∧
    ((⟨"movie"⟩ : CSInstance) = (⟨"movie"⟩ : CSInstance)) := by
  refine ⟨?_, ?_, ?_⟩
  · intro hmem
    have h := (claim_C3_first_namespace_singleton "movie" ["director"]).1 ⟨"director"⟩ hmem
    have : "director" = "movie" := congrArg CSInstance.keyPfx h
    simp at this
  · exact List.mem_cons_self _ _
  · exact (claim_C3_first_namespace_singleton "movie" ["director"]).1 ⟨"movie"⟩
      (List.mem_cons_self _ _)

/-- C6: `clearAllCaches` flushes the whole Local Tier, deletes exactly the
Shared Tier keys under the namespace glob, skips the bulk delete when no key
matches while still succeeding; after `set k1; set k2; clearAllCaches`, both
keys read back as absent. -/
theorem claim_C6_clearAll (st : CacheState) (k1 k2 : String)
    (v1 v2 : JsVal) (sa sb sc sd : Bool) :
    ((CacheService.clearAllCaches st true true).state.localCache = [] ∧
     (CacheService.clearAllCaches st true true).state.redis
        = st.redis.filter (fun e => !keyInNs st.keyPfx e.1) ∧
     (st.redis.filter (fun e => keyInNs st.keyPfx e.1) = [] →
        (CacheService.clearAllCaches st true true).delIssued = false ∧
        (CacheService.clearAllCaches st true true).state.redis = st.redis) ∧
     (CacheService.clearAllCaches st true true).result = .ok ()) ∧
    ((CacheService.get (CacheService.clearAllCaches
        (CacheService.set (CacheService.set st k1 v1 sa true).state k2 v2 sb true).state
        true true).state k1 sc true).result = .ok none ∧
     (CacheService.get (CacheService.clearAllCaches
        (CacheService.set (CacheService.set st k1 v1 sa true).state k2 v2 sb true).state
        true true).state k2 sd true).result = .ok none) := by
  refine ⟨⟨clear_localCache st true true, clear_redis_ok st, ?_, clear_result st true true⟩,
    get_after_set_set_clear st k1 k2 k1 v1 v2 sa sb sc,
    get_after_set_set_clear st k1 k2 k2 v1 v2 sa sb sd⟩
  intro h
  refine ⟨clear_noop_del st h, ?_⟩
  rw [clear_redis_ok st, filter_not_of_filter_nil _ _ h]

theorem claim_C6_witness :
    (emptySt.redis.filter (fun e => keyInNs emptySt.keyPfx e.1) = [] ∧
     (CacheService.clearAllCaches emptySt true true).delIssued = false ∧
     (CacheService.clearAllCaches emptySt true true).state.redis = emptySt.redis) :=
  ⟨rfl,
   ((claim_C6_clearAll emptySt "k1" "k2" JsVal.null JsVal.null true true true true).1.2.2.1 rfl)⟩

/-- C7: `publishCacheClear` only publishes the clear signal: on return both
cache tiers are unchanged and the call has resolved normally; on a successful
publish one signal was broadcast; clearing happens only when the bus delivers
the signal to the subscription handler (`deliverClear`), which flushes the
Local Tier. -/
theorem claim_C7_publish_frame (st : CacheState) (subOk pubOk keysOk delOk : Bool) :
    (CacheService.publishCacheClear st subOk pubOk).state.localCache = st.localCache ∧
    (CacheService.publishCacheClear st subOk pubOk).state.redis = st.redis ∧
    (CacheService.publishCacheClear st subOk pubOk).result = .ok () ∧
    (pubOk = true →
      (CacheService.publishCacheClear st subOk pubOk).state.published = st.published + 1) ∧
    (CacheService.deliverClear st keysOk delOk).localCache = [] := by
  refine ⟨pub_localCache st subOk pubOk, pub_redis st subOk pubOk,
    pub_result st subOk pubOk, ?_, clear_localCache st keysOk delOk⟩
  intro h
  rw [h]
  exact pub_published_ok st subOk

theorem claim_C7_witness :
    (true = true) ∧
    (CacheService.publishCacheClear emptySt true true).state.published
      = emptySt.published + 1 :=
  ⟨rfl, (claim_C7_publish_frame emptySt true true true true).2.2.2.1 rfl⟩

/-- C8: subscription state machine — from any state satisfying the
subscription invariant (as the process start state does), any sequence of
sequentially executed `get`/`set`/`publishCacheClear` calls registers the bus
handler at most once; once subscribed, no later operation registers again or
resets the flag; while every subscribe attempt fails, the flag stays unset
and every operation makes one more attempt. -/
theorem claim_C8_subscription_state_machine (st : CacheState) (ops : List CacheOp) :
    (subInv st → subInv (runOps st ops) ∧ (runOps st ops).subHandlers ≤ 1) ∧
    (st.natsSubscribed = true →
      (runOps st ops).natsSubscribed = true ∧
      (runOps st ops).subHandlers = st.subHandlers) ∧
    ((∀ op ∈ ops, op.subOk = false) → st.natsSubscribed = false →
      (runOps st ops).natsSubscribed = false ∧
      (runOps st ops).subAttempts = st.subAttempts + ops.length) := by
  refine ⟨?_, runOps_of_subscribed st ops, fun hall h => runOps_all_failed ops st hall h⟩
  intro h
  have hi := runOps_subInv st ops h
  refine ⟨hi, ?_⟩
  rcases hi with ⟨_, h2⟩ | ⟨_, h2⟩ <;> omega

def subbedSt : CacheState := ⟨"movie", [], [], true, 1, 1, 0⟩

def failedOps : List CacheOp :=
  [CacheOp.getOp "all-movies" false true, CacheOp.pubOp false true]

theorem claim_C8_witness :
    ((subInv (runOps emptySt failedOps) ∧ (runOps emptySt failedOps).subHandlers ≤ 1) ∧
     ((runOps subbedSt failedOps).natsSubscribed = true ∧
      (runOps subbedSt failedOps).subHandlers = subbedSt.subHandlers) ∧
     ((runOps emptySt failedOps).natsSubscribed = false ∧
      (runOps emptySt failedOps).subAttempts = emptySt.subAttempts + failedOps.length)) :=
  ⟨(claim_C8_subscription_state_machine emptySt failedOps).1 (Or.inl ⟨rfl, rfl⟩),
   (claim_C8_subscription_state_machine subbedSt failedOps).2.1 rfl,
   (claim_C8_subscription_state_machine emptySt failedOps).2.2
     (by
       intro op hop
       rcases List.mem_cons.mp hop with h1 | h1
       · rw [h1]; rfl
       · rcases List.mem_cons.mp h1 with h2 | h2
         · rw [h2]; rfl
         · cases h2)
     rfl⟩

def stC4 : CacheState :=
  ⟨"movie", [], [("movie:all-movies", Bytes.empty)], false, 0, 0, 0⟩

/-- C4 counterexample: with the Local Tier missing and the Shared Tier entry
holding the empty string — bytes `JSON.parse` rejects — `get` returns `null`
(a silent miss, because `if (redisData)` is falsy on `""`), not a
Serialization Error. -/
theorem claim_C4_counterexample :
    jsonParse Bytes.empty = .error () ∧
    (CacheService.get stC4 "all-movies" true true).result = .ok none ∧
    (CacheService.get stC4 "all-movies" true true).result
        ≠ .error CacheError.serial :=
  ⟨rfl, rfl, fun h => Except.noConfusion h⟩

/-- C4 amended: for a Shared Tier entry holding a non-empty string that
`JSON.parse` rejects, a `get` missing the Local Tier throws the
Serialization Error to its caller; the empty-string entry alone is treated
as a miss by `get`'s truthiness test. -/
theorem claim_C4_amended (st : CacheState) (key : String) (subOk : Bool) (t : Nat)
    (hl : st.localCache.lookup (CacheService.getKey st.keyPfx key) = none)
    (hr : st.redis.lookup (CacheService.getKey st.keyPfx key)
        = some (Bytes.malformed t)) :
    (CacheService.get st key subOk true).result = .error CacheError.serial := by
  rw [get_serial_error st key subOk t hl hr]

def stC4m : CacheState :=
  ⟨"movie", [], [("movie:all-movies", Bytes.malformed 1)], false, 0, 0, 0⟩

theorem claim_C4_witness :
    List.lookup (CacheService.getKey stC4m.keyPfx "all-movies") stC4m.localCache = none ∧
    List.lookup (CacheService.getKey stC4m.keyPfx "all-movies") stC4m.redis
      = some (Bytes.malformed 1) ∧
    (CacheService.get stC4m "all-movies" true true).result = .error CacheError.serial :=
  ⟨rfl, rfl, claim_C4_amended stC4m "all-movies" true 1 rfl rfl⟩

/-- C5 counterexample: with the Shared Tier unreachable and the Local Tier
missing, `get` itself throws the Connectivity Error to its caller — the
claim asserts `get` does not raise to the domain caller. -/
theorem claim_C5_counterexample :
    (CacheService.get emptySt "all-movies" true false).result
      = .error CacheError.conn := rfl

/-- C5 amended: a Subscription Error during `get` is swallowed inside `get`
(the result is independent of the subscribe attempt's outcome); a Shared
Tier Connectivity Error during `get` propagates out of `get`, but the domain
caller (`MovieService.getAllMovies`) catches it and falls through to the
primary store, so the read still succeeds without a user-visible failure. -/
theorem claim_C5_amended (st : CacheState) (dbMovies : JsVal)
    (key : String) (r gs ss sr : Bool) :
    ((CacheService.get st key false r).result
        = (CacheService.get st key true r).result) ∧
    (st.localCache.lookup (CacheService.getKey st.keyPfx key) = none →
      (CacheService.get st key gs false).result = .error CacheError.conn) ∧
    (st.localCache.lookup (CacheService.getKey st.keyPfx "all-movies") = none →
      (MovieService.getAllMovies st dbMovies gs false ss sr).result = dbMovies) := by
  refine ⟨get_result_indep st key r false true, ?_, ?_⟩
  · intro h
    rw [get_conn_error st key gs h]
  · intro h
    simp only [MovieService.getAllMovies, get_conn_error st "all-movies" gs h]

theorem claim_C5_witness :
    ((CacheService.get emptySt "k" false true).result
        = (CacheService.get emptySt "k" true true).result) ∧
    (List.lookup (CacheService.getKey emptySt.keyPfx "all-movies") emptySt.localCache
        = none ∧
     (CacheService.get emptySt "all-movies" true false).result = .error CacheError.conn ∧
     (MovieService.getAllMovies emptySt (JsVal.arr []) true false true true).result
        = JsVal.arr []) :=
  ⟨(claim_C5_amended emptySt (JsVal.arr []) "k" true true true true).1,
   rfl,
   (claim_C5_amended emptySt (JsVal.arr []) "all-movies" true true true true).2.1 rfl,
   (claim_C5_amended emptySt (JsVal.arr []) "all-movies" true true true true).2.2 rfl⟩

/-- C9 counterexample: a Shared Tier Connectivity Error during `set` is not
swallowed at the cache boundary — `set` has no try/catch around
`redisClient.setex`, so the call rejects with the Connectivity Error. -/
theorem claim_C9_counterexample :
    (CacheService.set emptySt "all-movies" (JsVal.arr []) true false).result
      = .error CacheError.conn := rfl

/-- C9 amended: Connectivity Errors during `clearAllCaches` and
`publishCacheClear` are logged and swallowed at the cache boundary (both
always resolve normally); `set`, however, propagates a Shared Tier
Connectivity Error to the domain caller, whose own try/catch swallows it —
only a successful Shared Tier write lets `set` resolve normally. -/
theorem claim_C9_amended (st : CacheState) (k : String) (v : JsVal)
    (a b c d s : Bool) :
    (CacheService.clearAllCaches st a b).result = .ok () ∧
    (CacheService.publishCacheClear st c d).result = .ok () ∧
    (CacheService.set st k v s false).result = .error CacheError.conn ∧
    (CacheService.set st k v s true).result = .ok () :=
  ⟨clear_result st a b, pub_result st c d,
   by rw [set_conn], by rw [set_ok]⟩

def vDiv : JsVal := .obj [("a", .undef)]

def stAfterSet : CacheState := (CacheService.set emptySt "k" vDiv true true).state

def stEvicted : CacheState := { stAfterSet with localCache := [] }

/-- C10: tier representation divergence — `set` stores the original value in
the Local Tier and its JSON-serialized form in the Shared Tier; for the value
`{a: undefined}`, whose JSON round trip is `{}`, a `get` served by the Local
Tier returns the original, while after a Local Tier eviction the same `get`
returns the different round-tripped value from the Shared Tier. -/
theorem claim_C10_tier_divergence (st : CacheState) (k : String) (v : JsVal) (s : Bool) :
    ((CacheService.set st k v s true).state.localCache.lookup
        (CacheService.getKey st.keyPfx k) = some v ∧
     (CacheService.set st k v s true).state.redis.lookup
        (CacheService.getKey st.keyPfx k) = some (stringify v)) ∧
    (stringify vDiv = Bytes.ofJson (Jval.obj []) ∧
     jvalToJs (Jval.obj []) ≠ vDiv ∧
     (CacheService.get stAfterSet "k" true true).result = .ok (some vDiv) ∧
     (CacheService.get stEvicted "k" true true).result
        = .ok (some (jvalToJs (Jval.obj [])))) := by
  refine ⟨?_, rfl, ?_, rfl, rfl⟩
  · rw [set_ok st k v s]
    exact ⟨by simp [List.lookup], by simp [List.lookup]⟩
  · simp [jvalToJs, jvalPropsToJs, vDiv]
